import Mathlib

/-!
Verification of the tiered caching and idempotent-write deduplication
subsystem of the Agila audit-log service.

The cache facade (getCache, setCache, invalidatePattern, withCache,
generateCacheKey) is embedded from src/unnamed/part_000 (the hybrid
Redis + LRU cache utility); the dedup guard (isDuplicate,
markAsProcessed, cleanupExpired) from
src/dist/services/dedup.service.js.

Modelling conventions:
- Cached payloads are kept in their serialized (JSON text) form, exactly
  as the tiers store them; the TypeScript caller sees JSON.parse of the
  returned text.  JavaScript truthiness on a string payload is the
  payload being nonempty.
- JavaScript values that flow through JSON.stringify are modelled by
  the inductive JsonValue.  Numbers are modelled as integers (the
  repository only caches integral counters and ids); object fields are
  stored in JavaScript property order (integer-like keys first in
  ascending numeric order, then the remaining keys in insertion order),
  so the serializer emits fields in list order.
- Asynchronous tier calls that can reject are modelled with explicit
  Boolean failure oracles; a rejected await transfers control to the
  nearest enclosing catch, exactly as in the source.
- TTL-based expiry inside the cache tiers is tier-managed and outside
  this time-free model; the dedup store models time explicitly through
  a millisecond clock in its state.
-/

-- ────────────────────────────────────────
-- JSON values and JSON.stringify
-- ────────────────────────────────────────

/-- A JSON-serializable JavaScript value.  Object fields are listed in
JavaScript property order. -/
inductive JsonValue where
  | null
  | bool (b : Bool)
  | num (n : Int)
  | str (s : String)
  | arr (elems : List JsonValue)
  | obj (fields : List (String × JsonValue))

/-- Hexadecimal digit character, used for JSON control-character escapes. -/
def hexDigitChar (n : Nat) : Char :=
  if n < 10 then Char.ofNat ('0'.toNat + n) else Char.ofNat ('a'.toNat + (n - 10))

/-- Four-digit hexadecimal rendering, used for JSON \u escapes. -/
def hex4 (n : Nat) : String :=
  String.mk [hexDigitChar (n / 4096 % 16), hexDigitChar (n / 256 % 16),
    hexDigitChar (n / 16 % 16), hexDigitChar (n % 16)]

/-- The escape JSON.stringify applies to one character inside a string
literal. -/
def jsonEscapeChar (c : Char) : String :=
  if c = '"' then "\\\""
  else if c = '\\' then "\\\\"
  else if c = '\x08' then "\\b"
  else if c = '\x09' then "\\t"
  else if c = '\x0a' then "\\n"
  else if c = '\x0c' then "\\f"
  else if c = '\x0d' then "\\r"
  else if c.toNat < 32 then "\\u" ++ hex4 c.toNat
  else String.mk [c]

/-- JSON string literal for s, double-quoted and escaped. -/
def jsonQuote (s : String) : String :=
  "\"" ++ String.join (s.data.map jsonEscapeChar) ++ "\""

mutual
/-- JSON.stringify on the JsonValue model.  Emits object fields in list
order, which by the representation invariant is JavaScript property
order. -/
def jsonStringify : JsonValue → String
  | JsonValue.null => "null"
  | JsonValue.bool b => cond b "true" "false"
  | JsonValue.num n => Int.repr n
  | JsonValue.str s => jsonQuote s
  | JsonValue.arr xs => "[" ++ stringifyElems xs ++ "]"
  | JsonValue.obj fs => "\x7b" ++ stringifyFields fs ++ "\x7d"

/-- Serialization of the comma-separated element list of a JSON array. -/
def stringifyElems : List JsonValue → String
  | [] => ""
  | [x] => jsonStringify x
  | x :: y :: r => jsonStringify x ++ "," ++ stringifyElems (y :: r)

/-- Serialization of the comma-separated field list of a JSON object. -/
def stringifyFields : List (String × JsonValue) → String
  | [] => ""
  | [(k, v)] => jsonQuote k ++ ":" ++ jsonStringify v
  | (k, v) :: f :: r => jsonQuote k ++ ":" ++ jsonStringify v ++ "," ++ stringifyFields (f :: r)
end

theorem toDigitsCore_length_le (b : Nat) : ∀ (fuel n : Nat) (ds : List Char),
    ds.length ≤ (Nat.toDigitsCore b fuel n ds).length := by
  intro fuel
  induction fuel with
  | zero => intro n ds; simp [Nat.toDigitsCore]
  | succ f ih =>
    intro n ds
    simp only [Nat.toDigitsCore]
    split
    · simp
    · exact le_trans (by simp) (ih _ _)

theorem natRepr_length_pos (n : Nat) : 0 < (Nat.repr n).length := by
  unfold Nat.repr Nat.toDigits
  simp only [Nat.toDigitsCore]
  split
  · simp [List.asString]
  · calc 0 < (List.length [Nat.digitChar (n % 10)]) := by simp
      _ ≤ _ := toDigitsCore_length_le 10 _ _ _

theorem intRepr_length_pos (n : Int) : 0 < (Int.repr n).length := by
  cases n with
  | ofNat m => exact natRepr_length_pos m
  | negSucc m =>
    show 0 < ((("-" : String) ++ Nat.repr (m + 1)).length)
    rw [String.length_append]
    have h : ("-" : String).length = 1 := rfl
    omega

/-- Every JSON.stringify output is a nonempty string, hence truthy in
JavaScript. -/
theorem jsonStringify_length_pos (v : JsonValue) : 0 < (jsonStringify v).length := by
  cases v with
  | null => decide
  | bool b => cases b <;> decide
  | num n => exact intRepr_length_pos n
  | str s =>
    show 0 < (jsonQuote s).length
    unfold jsonQuote
    rw [String.length_append, String.length_append]
    have h : ("\"" : String).length = 1 := rfl
    omega
  | arr xs =>
    show 0 < ((("[" : String) ++ stringifyElems xs ++ "]").length)
    rw [String.length_append, String.length_append]
    have h : ("[" : String).length = 1 := rfl
    omega
  | obj fs =>
    show 0 < ((("\x7b" : String) ++ stringifyFields fs ++ "\x7d").length)
    rw [String.length_append, String.length_append]
    have h : ("\x7b" : String).length = 1 := rfl
    omega

theorem jsonStringify_ne_empty (v : JsonValue) : jsonStringify v ≠ "" := by
  intro h
  have := jsonStringify_length_pos v
  rw [h] at this
  simp at this

-- ────────────────────────────────────────
-- generateCacheKey (cache.util, lines 398-403)
-- ────────────────────────────────────────

/-- Code-unit comparison of two character lists, the comparator behind
the default JavaScript Array.prototype.sort on strings (the orders agree
on the basic multilingual plane, which covers every key this repository
generates). -/
def charsLe : List Char → List Char → Bool
  | [], _ => true
  | _ :: _, [] => false
  | c :: cs, d :: ds => if c < d then true else if d < c then false else charsLe cs ds

theorem charsLe_total : ∀ l1 l2 : List Char, charsLe l1 l2 = true ∨ charsLe l2 l1 = true := by
  intro l1
  induction l1 with
  | nil => intro l2; left; rfl
  | cons c cs ih =>
    intro l2
    cases l2 with
    | nil => right; rfl
    | cons d ds =>
      simp only [charsLe]
      rcases lt_trichotomy c d with h | h | h
      · left; simp [h]
      · subst h; simpa [lt_irrefl] using ih ds
      · right; simp [h, not_lt_of_gt h]

theorem charsLe_trans : ∀ l1 l2 l3 : List Char,
    charsLe l1 l2 = true → charsLe l2 l3 = true → charsLe l1 l3 = true := by
  intro l1
  induction l1 with
  | nil => intro l2 l3 _ _; rfl
  | cons c cs ih =>
    intro l2 l3 h1 h2
    cases l2 with
    | nil => simp [charsLe] at h1
    | cons d ds =>
      cases l3 with
      | nil => simp [charsLe] at h2
      | cons e es =>
        simp only [charsLe] at h1 h2 ⊢
        rcases lt_trichotomy c d with hcd | hcd | hcd
        · have hde : ¬ e < d := by
            intro he
            simp [not_lt_of_gt he, he] at h2
          rcases lt_trichotomy d e with hde2 | hde2 | hde2
          · simp [lt_trans hcd hde2]
          · subst hde2; simp [hcd]
          · exact absurd hde2 hde
        · subst hcd
          simp only [lt_irrefl, if_false] at h1
          rcases lt_trichotomy c e with hce | hce | hce
          · simp [hce]
          · subst hce
            simp only [lt_irrefl, if_false] at h2 ⊢
            exact ih _ _ h1 h2
          · simp [not_lt_of_gt hce, hce] at h2
        · simp [not_lt_of_gt hcd, hcd] at h1

theorem charsLe_antisymm : ∀ l1 l2 : List Char,
    charsLe l1 l2 = true → charsLe l2 l1 = true → l1 = l2 := by
  intro l1
  induction l1 with
  | nil =>
    intro l2 _ h2
    cases l2 with
    | nil => rfl
    | cons d ds => simp [charsLe] at h2
  | cons c cs ih =>
    intro l2 h1 h2
    cases l2 with
    | nil => simp [charsLe] at h1
    | cons d ds =>
      simp only [charsLe] at h1 h2
      rcases lt_trichotomy c d with hcd | hcd | hcd
      · simp [not_lt_of_gt hcd, hcd] at h2
      · subst hcd
        simp only [lt_irrefl, if_false] at h1 h2
        rw [ih ds h1 h2]
      · simp [not_lt_of_gt hcd, hcd] at h1

/-- String comparison used to model the default JavaScript sort in
Object.keys(params).sort(). -/
def strLeP (a b : String) : Prop := charsLe a.data b.data = true

instance strLePDecidable : DecidableRel strLeP :=
  fun _ _ => inferInstanceAs (Decidable (_ = true))

instance : IsTotal String strLeP := ⟨fun a b => charsLe_total a.data b.data⟩

instance : IsTrans String strLeP := ⟨fun _ _ _ h1 h2 => charsLe_trans _ _ _ h1 h2⟩

instance : IsAntisymm String strLeP := ⟨fun a b h1 h2 => by
  have h := charsLe_antisymm _ _ h1 h2
  cases a; cases b
  exact congrArg String.mk h⟩

/-- Sorting a key list with the default JavaScript comparator. -/
def sortStrings (l : List String) : List String := List.insertionSort strLeP l

/-- Decimal digit test on a character. -/
def isDigitChar (c : Char) : Bool := decide ('0' ≤ c) && decide (c ≤ '9')

/-- Whether a property key is integer-like in the ECMAScript sense (the
canonical decimal rendering of a nonnegative integer).  JavaScript
objects keep such keys ahead of all other keys, in ascending numeric
order, regardless of insertion order. -/
def isIndexKey (s : String) : Bool :=
  match s.data with
  | [] => false
  | [c] => isDigitChar c
  | c :: d :: rest => isDigitChar c && c != '0' && (d :: rest).all isDigitChar

/-- Numeric value of a decimal digit character. -/
def digitVal (c : Char) : Nat := c.toNat - '0'.toNat

/-- Accumulator-style decimal value of a character list. -/
def charsNum : List Char → Nat → Nat
  | [], acc => acc
  | c :: t, acc => charsNum t (acc * 10 + digitVal c)

/-- Numeric value of an integer-like property key. -/
def keyNum (s : String) : Nat := charsNum s.data 0

/-- Ordering of object fields by the numeric value of their keys. -/
def numLeP (a b : String × JsonValue) : Prop := keyNum a.1 ≤ keyNum b.1

instance numLePDecidable : DecidableRel numLeP := fun a b => Nat.decLe (keyNum a.1) (keyNum b.1)

/-- ECMAScript own-property order of an object whose fields were created
in the given list order: integer-like keys first in ascending numeric
order, then the remaining keys in creation order. -/
def propertyOrder (fs : List (String × JsonValue)) : List (String × JsonValue) :=
  List.insertionSort numLeP (fs.filter (fun kv => isIndexKey kv.1))
    ++ fs.filter (fun kv => !isIndexKey kv.1)

/-- Object.keys on a parameter object built by inserting the fields in
list order. -/
def objectKeys (fs : List (String × JsonValue)) : List String :=
  (propertyOrder fs).map Prod.fst

/-- Property read params[key]; JavaScript yields the stored value of the
key (the default is never reached on keys obtained from Object.keys). -/
def lookupD : List (String × JsonValue) → String → JsonValue
  | [], _ => JsonValue.null
  | (k', v) :: t, k => if k' = k then v else lookupD t k

/-- The field list of the object built by the reduce in generateCacheKey:
the keys of params sorted with the default comparator, each paired with
its value, inserted in sorted order. -/
def sortedFields (p : List (String × JsonValue)) : List (String × JsonValue) :=
  (sortStrings (objectKeys p)).map (fun k => (k, lookupD p k))

/-- generateCacheKey from cache.util: sorts Object.keys(params), rebuilds
an object by inserting the fields in sorted key order, and serializes it
after the audit:namespace: prefix.  The rebuilt object is serialized in
JavaScript property order, which is what JSON.stringify sees. -/
def generateCacheKey (ns : String) (p : List (String × JsonValue)) : String :=
  "audit:" ++ ns ++ ":" ++ jsonStringify (JsonValue.obj (propertyOrder (sortedFields p)))

/-- Cache key as claim C2 words it: the JSON serialization of the
parameters with keys sorted lexicographically, after the same prefix. -/
def cacheKeySortedLex (ns : String) (p : List (String × JsonValue)) : String :=
  "audit:" ++ ns ++ ":" ++
    jsonStringify (JsonValue.obj ((sortStrings (p.map Prod.fst)).map (fun k => (k, lookupD p k))))

theorem propertyOrder_perm (fs : List (String × JsonValue)) : (propertyOrder fs).Perm fs := by
  unfold propertyOrder
  exact ((List.perm_insertionSort numLeP _).append_right _).trans (List.filter_append_perm _ fs)

theorem objectKeys_perm (fs : List (String × JsonValue)) :
    (objectKeys fs).Perm (fs.map Prod.fst) :=
  (propertyOrder_perm fs).map Prod.fst

theorem lookupD_eq_of_mem : ∀ (p : List (String × JsonValue)) (k : String) (v : JsonValue),
    (p.map Prod.fst).Nodup → (k, v) ∈ p → lookupD p k = v := by
  intro p
  induction p with
  | nil => intro k v _ hm; simp at hm
  | cons kv t ih =>
    intro k v hnd hm
    obtain ⟨k', v'⟩ := kv
    rw [List.map_cons, List.nodup_cons] at hnd
    rcases List.mem_cons.mp hm with h | h
    · rw [Prod.mk.injEq] at h
      obtain ⟨h1, h2⟩ := h
      subst h1; subst h2
      simp [lookupD]
    · have hk : k' ≠ k := by
        intro he
        subst he
        exact hnd.1 (List.mem_map.mpr ⟨(k', v), h, rfl⟩)
      rw [lookupD, if_neg hk]
      exact ih k v hnd.2 h

theorem sortStrings_eq_of_perm {l1 l2 : List String} (h : l1.Perm l2) :
    sortStrings l1 = sortStrings l2 :=
  List.eq_of_perm_of_sorted
    ((List.perm_insertionSort strLeP l1).trans (h.trans (List.perm_insertionSort strLeP l2).symm))
    (List.sorted_insertionSort strLeP l1)
    (List.sorted_insertionSort strLeP l2)

theorem mem_keys_of_mem_sortStrings {p : List (String × JsonValue)} {k : String}
    (h : k ∈ sortStrings (objectKeys p)) : k ∈ p.map Prod.fst :=
  (objectKeys_perm p).mem_iff.mp ((List.perm_insertionSort strLeP (objectKeys p)).mem_iff.mp h)

theorem sortedFields_eq_of_perm {p1 p2 : List (String × JsonValue)}
    (hperm : p1.Perm p2) (hnd : (p1.map Prod.fst).Nodup) :
    sortedFields p1 = sortedFields p2 := by
  have hnd2 : (p2.map Prod.fst).Nodup := ((hperm.map Prod.fst).nodup_iff).mp hnd
  have hkeys : sortStrings (objectKeys p1) = sortStrings (objectKeys p2) :=
    sortStrings_eq_of_perm
      ((objectKeys_perm p1).trans ((hperm.map Prod.fst).trans (objectKeys_perm p2).symm))
  unfold sortedFields
  rw [hkeys]
  apply List.map_congr_left
  intro k hk
  have hk1 : k ∈ p1.map Prod.fst :=
    ((hperm.map Prod.fst).mem_iff).mpr (mem_keys_of_mem_sortStrings hk)
  obtain ⟨⟨k0, v⟩, hm, hfst⟩ := List.mem_map.mp hk1
  cases hfst
  have e1 : lookupD p1 k0 = v := lookupD_eq_of_mem _ _ _ hnd hm
  have e2 : lookupD p2 k0 = v := lookupD_eq_of_mem _ _ _ hnd2 (hperm.subset hm)
  rw [e1, e2]

theorem generateCacheKey_eq_of_perm {p1 p2 : List (String × JsonValue)} (ns : String)
    (hperm : p1.Perm p2) (hnd : (p1.map Prod.fst).Nodup) :
    generateCacheKey ns p1 = generateCacheKey ns p2 := by
  unfold generateCacheKey
  rw [sortedFields_eq_of_perm hperm hnd]

theorem propertyOrder_eq_self {fs : List (String × JsonValue)}
    (h : ∀ kv ∈ fs, isIndexKey kv.1 = false) : propertyOrder fs = fs := by
  unfold propertyOrder
  have h1 : fs.filter (fun kv => isIndexKey kv.1) = [] := by
    rw [List.filter_eq_nil_iff]
    intro a ha
    simp [h a ha]
  have h2 : fs.filter (fun kv => !isIndexKey kv.1) = fs := by
    rw [List.filter_eq_self]
    intro a ha
    simp [h a ha]
  rw [h1, h2]
  rfl

theorem generateCacheKey_lexForm {p : List (String × JsonValue)} (ns : String)
    (h : ∀ kv ∈ p, isIndexKey kv.1 = false) :
    generateCacheKey ns p = cacheKeySortedLex ns p := by
  unfold generateCacheKey cacheKeySortedLex
  have hfields : ∀ kv ∈ sortedFields p, isIndexKey kv.1 = false := by
    intro kv hkv
    obtain ⟨k, hk, rfl⟩ := List.mem_map.mp hkv
    obtain ⟨⟨k0, v⟩, hm, hfst⟩ := List.mem_map.mp (mem_keys_of_mem_sortStrings hk)
    cases hfst
    exact h (k0, v) hm
  rw [propertyOrder_eq_self hfields]
  unfold sortedFields
  rw [sortStrings_eq_of_perm (objectKeys_perm p)]

-- ────────────────────────────────────────
-- Cache facade state and tier primitives (cache.util)
-- ────────────────────────────────────────

/-- currentCacheMode of cache.util: redis is the spec Primary mode, lru
the spec Fallback mode, disabled the spec Disabled mode. -/
inductive CacheMode where
  | redis
  | lru
  | disabled
deriving DecidableEq

/-- State of the three cache tiers plus the module configuration.  Each
tier maps keys to the serialized payloads it stores; enableCache models
ENABLE_CACHE, redisConnected a non-null redisClient, restConfigured the
presence of UPSTASH_REDIS_REST_URL and its token. -/
structure CacheState where
  enableCache : Bool
  redisConnected : Bool
  restConfigured : Bool
  mode : CacheMode
  redis : List (String × String)
  rest : List (String × String)
  lru : List (String × String)

/-- Key lookup in a tier. -/
def lookupKV : List (String × String) → String → Option String
  | [], _ => none
  | (k', v) :: t, k => if k' = k then some v else lookupKV t k

/-- Overwriting key insert, the SET semantics shared by all three tiers. -/
def insertKV (l : List (String × String)) (k v : String) : List (String × String) :=
  (k, v) :: l.filter (fun kv => kv.1 != k)

/-- JavaScript truthiness filter on a tier read: an empty-string payload
is falsy and treated as a miss by the if (value) guards of getCache. -/
def truthy : Option String → Option String
  | some v => if v = "" then none else some v
  | none => none

/-- getCache from cache.util (lines 292-327), returning the serialized
payload of the first truthy tier hit; the TypeScript caller receives
JSON.parse of that payload, and null when the result here is none.  The
redisGetFails oracle models a rejected redisClient.get, which jumps to
the catch of getCache and yields null; restGetFails models a failed REST
fetch, which restGet itself catches and turns into null, so the scan
continues with the LRU tier. -/
def getCacheRaw (st : CacheState) (redisGetFails restGetFails : Bool) (key : String) : Option String :=
  if st.enableCache = false then none
  else if st.mode = CacheMode.redis ∧ st.redisConnected = true ∧ redisGetFails = true then none
  else
    match (if st.mode = CacheMode.redis ∧ st.redisConnected = true
           then truthy (lookupKV st.redis key) else none) with
    | some v => some v
    | none =>
      match (if st.mode = CacheMode.lru ∧ st.restConfigured = true ∧ restGetFails = false
             then truthy (lookupKV st.rest key) else none) with
      | some v => some v
      | none => truthy (lookupKV st.lru key)

/-- setCache from cache.util (lines 335-362).  Serialization happens
once; the Redis write runs only in redis mode with a client, the REST
write only in lru mode with a configured REST tier, and the LRU write is
reached afterwards.  A rejected redisClient.set jumps to the one
try/catch wrapping the whole body, so the LRU write is skipped in that
case; a failed restSet is caught inside restSet and only suppresses the
REST write.  The ttlSeconds argument only parameterizes tier-managed
expiry and does not change the stored payload. -/
def setCache (st : CacheState) (key : String) (value : JsonValue) (ttlSeconds : Option Nat)
    (redisSetFails restSetFails : Bool) : CacheState :=
  if st.enableCache = false then st
  else
    let s := jsonStringify value
    if st.mode = CacheMode.redis ∧ st.redisConnected = true then
      if redisSetFails then st
      else { st with redis := insertKV st.redis key s, lru := insertKV st.lru key s }
    else if st.mode = CacheMode.lru ∧ st.restConfigured = true then
      if restSetFails then { st with lru := insertKV st.lru key s }
      else { st with rest := insertKV st.rest key s, lru := insertKV st.lru key s }
    else { st with lru := insertKV st.lru key s }

/-- Character-list test for startsWith, used by substring containment. -/
def charsStartWith : List Char → List Char → Bool
  | _, [] => true
  | [], _ :: _ => false
  | c :: cs, d :: ds => c == d && charsStartWith cs ds

/-- Character-list test for substring containment. -/
def charsContain : List Char → List Char → Bool
  | [], needle => needle.isEmpty
  | c :: cs, needle => charsStartWith (c :: cs) needle || charsContain cs needle

/-- String.prototype.includes: whether hay contains needle as a literal
substring. -/
def strContains (hay needle : String) : Bool := charsContain hay.data needle.data

/-- Fuel-indexed redis KEYS glob matcher over character lists, with the
star and question-mark wildcards used by the patterns this repository
issues; the fuel supplied by globMatch strictly exceeds the combined
length, so the zero-fuel fallback is unreachable. -/
def globAux : Nat → List Char → List Char → Bool
  | 0, _, _ => false
  | _ + 1, [], [] => true
  | f + 1, '*' :: ps, [] => globAux f ps []
  | _ + 1, _ :: _, [] => false
  | _ + 1, [], _ :: _ => false
  | f + 1, '*' :: ps, c :: cs => globAux f ps (c :: cs) || globAux f ('*' :: ps) cs
  | f + 1, '?' :: ps, _ :: cs => globAux f ps cs
  | f + 1, p :: ps, c :: cs => p == c && globAux f ps cs

/-- Glob match of a redis KEYS pattern against a key. -/
def globMatch (pattern key : String) : Bool :=
  globAux (pattern.length + key.length + 1) pattern.data key.data

/-- invalidatePattern from cache.util (lines 420-443).  In redis mode the
pattern is evaluated by the backend as a glob over the redis keyspace and
the matches are bulk-deleted there; outside redis mode, an lru-mode scan
deletes the LRU keys containing the pattern text as a literal substring;
any other mode returns 0.  The count of matched keys is returned.  A
rejected redisClient.keys or del is caught and yields 0. -/
def invalidatePattern (st : CacheState) (pattern : String) (redisScanFails : Bool) :
    Nat × CacheState :=
  if st.enableCache = false ∨ st.mode ≠ CacheMode.redis ∨ st.redisConnected = false then
    if st.mode = CacheMode.lru then
      ((st.lru.filter (fun kv => strContains kv.1 pattern)).length,
        { st with lru := st.lru.filter (fun kv => !strContains kv.1 pattern) })
    else (0, st)
  else if redisScanFails then (0, st)
  else
    ((st.redis.filter (fun kv => globMatch pattern kv.1)).length,
      { st with redis := st.redis.filter (fun kv => !globMatch pattern kv.1) })

/-- withCache from cache.util (lines 480-498) with an error-free compute
function whose result is computeResult.  Returns the serialized form of
the TypeScript return value, whether the compute function ran, and the
state afterwards.  The cached branch is taken exactly when getCache
yields a non-null parsed value, that is, a payload other than the JSON
null literal (stored payloads are serializer outputs, so parsing only
yields null on the null literal). -/
def withCache (st : CacheState) (key : String) (computeResult : JsonValue) (ttlSeconds : Option Nat) :
    String × Bool × CacheState :=
  match getCacheRaw st false false key with
  | some s =>
    if s = "null" then
      (jsonStringify computeResult, true, setCache st key computeResult ttlSeconds false false)
    else (s, false, st)
  | none => (jsonStringify computeResult, true, setCache st key computeResult ttlSeconds false false)

/-- Tier-consultation order exactly as claim C4 words it: the Redis tier
when mode is Primary; then, if that was absent or mode is Fallback, the
HTTP/REST tier when it is configured; then, if still absent, the
in-process LRU tier; the first hit is returned and none when all tiers
miss. -/
def getCacheClaimC4 (st : CacheState) (key : String) : Option String :=
  if st.enableCache = false then none
  else
    match (if st.mode = CacheMode.redis then truthy (lookupKV st.redis key) else none) with
    | some v => some v
    | none =>
      match (if st.restConfigured = true then truthy (lookupKV st.rest key) else none) with
      | some v => some v
      | none => truthy (lookupKV st.lru key)

/-- Tier-consultation order as amended: the Redis tier when mode is
Primary and the client is present; the HTTP/REST tier only when mode is
Fallback and it is configured, so a Primary-mode Redis miss falls
through directly to the in-process LRU tier; the first hit is returned
and none when all tiers miss. -/
def getCacheClaimC4Amended (st : CacheState) (key : String) : Option String :=
  if st.enableCache = false then none
  else
    match (if st.mode = CacheMode.redis ∧ st.redisConnected = true
           then truthy (lookupKV st.redis key) else none) with
    | some v => some v
    | none =>
      match (if st.mode = CacheMode.lru ∧ st.restConfigured = true
             then truthy (lookupKV st.rest key) else none) with
      | some v => some v
      | none => truthy (lookupKV st.lru key)

-- ────────────────────────────────────────
-- Dedup guard (dedup.service, lines 12-83)
-- ────────────────────────────────────────

/-- A row of the EventDedup table: eventId carries a unique constraint,
expiresAt is a millisecond timestamp. -/
structure DedupRecord where
  eventId : String
  sourceService : String
  expiresAt : Nat

/-- State of the dedup guard: whether the Upstash REST client was
configured at module load, the fast tier (key, sentinel payload, expiry
seconds), the durable EventDedup table, and the current time in
milliseconds. -/
structure DedupState where
  redisConfigured : Bool
  fast : List (String × String × Nat)
  db : List DedupRecord
  now : Nat

/-- Fast-tier sentinel key for an event id. -/
def dedupKey (eventId : String) : String := "audit:dedup:" ++ eventId

/-- Seven days in milliseconds, the durable retention period. -/
def sevenDaysMs : Nat := 604800000

/-- Whether the durable tier already holds a record for this event id. -/
def hasEventId (db : List DedupRecord) (eid : String) : Bool :=
  db.any (fun r => r.eventId == eid)

/-- Lookup in the fast sentinel tier. -/
def lookupFast : List (String × String × Nat) → String → Option (String × Nat)
  | [], _ => none
  | (k', v, t) :: rest, k => if k' = k then some (v, t) else lookupFast rest k

/-- Overwriting insert in the fast sentinel tier. -/
def insertFast (l : List (String × String × Nat)) (k v : String) (ex : Nat) :
    List (String × String × Nat) :=
  (k, v, ex) :: l.filter (fun e => e.1 != k)

/-- isDuplicate from dedup.service (lines 13-42), returning the result,
whether the surrounding catch ran, and the state afterwards.  An empty
eventId short-circuits to false before any tier is consulted.  The fast
tier is read first when the REST client is configured; a truthy sentinel
answers true.  Otherwise the durable tier is read; on a hit the fast
tier is backfilled with a one-hour sentinel and the answer is true.  The
three failure oracles model a rejected fast-tier get, durable find, and
fast-tier backfill set; each lands in the catch, which answers false. -/
def isDuplicate (st : DedupState) (fastGetFails dbFindFails fastSetFails : Bool)
    (eventId sourceService : String) : Bool × Bool × DedupState :=
  if eventId = "" then (false, false, st)
  else if st.redisConfigured = true ∧ fastGetFails = true then (false, true, st)
  else if st.redisConfigured = true ∧ (lookupFast st.fast (dedupKey eventId)).isSome then
    (true, false, st)
  else if dbFindFails = true then (false, true, st)
  else if hasEventId st.db eventId then
    if st.redisConfigured = true then
      if fastSetFails then (false, true, st)
      else (true, false, { st with fast := insertFast st.fast (dedupKey eventId) "1" 3600 })
    else (true, false, st)
  else (false, false, st)

/-- markAsProcessed from dedup.service (lines 43-65), returning whether
the surrounding catch ran and the state afterwards; the method never
rejects.  An empty eventId is a no-op.  Otherwise a DedupRecord with
expiresAt seven days from now is created in the durable tier; prisma
create rejects when the oracle says so or when the unique eventId
constraint is violated, and the catch swallows it.  With the REST client
configured, a sentinel with a seven-day expiry is then set in the fast
tier; a rejected set is also swallowed, after the durable write already
committed. -/
def markAsProcessed (st : DedupState) (dbCreateFails fastSetFails : Bool)
    (eventId sourceService : String) : Bool × DedupState :=
  if eventId = "" then (false, st)
  else if dbCreateFails = true ∨ hasEventId st.db eventId = true then (true, st)
  else
    let st1 := { st with db := ⟨eventId, sourceService, st.now + sevenDaysMs⟩ :: st.db }
    if st.redisConfigured = true then
      if fastSetFails then (true, st1)
      else (false, { st1 with fast := insertFast st1.fast (dedupKey eventId) "1" 604800 })
    else (false, st1)

/-- cleanupExpired from dedup.service (lines 66-82): deleteMany of every
record with expiresAt strictly before now, returning the deleted count;
a rejected deleteMany is caught and yields 0. -/
def cleanupExpired (st : DedupState) (dbDeleteFails : Bool) : Nat × DedupState :=
  if dbDeleteFails = true then (0, st)
  else
    ((st.db.filter (fun r => decide (r.expiresAt < st.now))).length,
      { st with db := st.db.filter (fun r => !decide (r.expiresAt < st.now)) })

-- ────────────────────────────────────────
-- Claim theorems
-- ────────────────────────────────────────

/-- Round trip shared by several claims: with caching enabled and no
tier errors, setCache followed by getCache on the same key yields the
serialized payload of the stored value, in every mode. -/
theorem setCache_roundTrip (st : CacheState) (k : String) (v : JsonValue) (ttl : Option Nat)
    (hE : st.enableCache = true) :
    getCacheRaw (setCache st k v ttl false false) false false k = some (jsonStringify v) := by
  have hne := jsonStringify_ne_empty v
  obtain ⟨en, rc, rf, mode, redis, rest, lru⟩ := st
  simp only [CacheState.enableCache] at hE
  subst hE
  cases mode <;> cases rc <;> cases rf <;>
    simp [setCache, getCacheRaw, insertKV, lookupKV, truthy, hne]

/-- Concrete Primary-mode state for claim C1, with an empty LRU tier. -/
def c1State : CacheState :=
  { enableCache := true, redisConnected := true, restConfigured := false,
    mode := CacheMode.redis, redis := [], rest := [], lru := [] }

/-- Concrete Fallback-mode state with a configured REST tier, for the
contrasting half of claim C1. -/
def c1FallbackState : CacheState :=
  { enableCache := true, redisConnected := false, restConfigured := true,
    mode := CacheMode.lru, redis := [], rest := [], lru := [] }

/-- Claim C1: the claim (and the comment in setCache itself, Always set
in LRU as additional fallback) requires the LRU write to survive any
networked-tier failure, but the single try/catch wraps the LRU write
too: in Primary (redis) mode a rejected redisClient.set jumps to the
catch before lruCache.set runs, leaving the LRU tier without the entry,
whereas a REST-tier failure in Fallback mode is caught inside restSet
and the LRU write still happens. -/
theorem c1_redis_set_error_skips_lru_write :
    (setCache c1State "k" (JsonValue.num 1) (some 60) true false).lru = [] ∧
    (setCache c1FallbackState "k" (JsonValue.num 1) (some 60) false true).lru = [("k", "1")] :=
  ⟨rfl, rfl⟩

/-- Claim C3: with caching enabled, mode not Disabled, a positive ttl
and no tier errors, setCache then getCache on the same key returns
exactly the serialized form of the stored value; the TypeScript caller
receives JSON.parse of that payload, the serialize/deserialize round
trip of v, hence a value deep-equal to v.  Holds in Primary mode,
Fallback mode with or without the REST tier, and in-process-only
operation alike. -/
theorem c3_set_then_get_round_trip (st : CacheState) (k : String) (v : JsonValue) (t : Nat)
    (hE : st.enableCache = true) (hM : st.mode ≠ CacheMode.disabled) (hT : 0 < t) :
    getCacheRaw (setCache st k v (some t) false false) false false k
      = some (jsonStringify v) :=
  setCache_roundTrip st k v (some t) hE

/-- Concrete in-process-only state for the claim C3 witness. -/
def c3State : CacheState :=
  { enableCache := true, redisConnected := false, restConfigured := false,
    mode := CacheMode.lru, redis := [], rest := [], lru := [] }

theorem c3_witness :
    getCacheRaw (setCache c3State "stats:today" (JsonValue.num 7) (some 3600) false false)
      false false "stats:today" = some (jsonStringify (JsonValue.num 7)) :=
  c3_set_then_get_round_trip c3State "stats:today" (JsonValue.num 7) 3600 rfl (by decide) (by decide)

/-- Concrete Primary-mode state for claim C4: Redis misses the key, the
configured REST tier holds it, the LRU tier misses. -/
def c4State : CacheState :=
  { enableCache := true, redisConnected := true, restConfigured := true,
    mode := CacheMode.redis, redis := [], rest := [("k", "1")], lru := [] }

/-- Claim C4 counterexample: under the claimed order a Primary-mode
Redis miss falls through to the configured REST tier and would serve its
value, but getCache consults the REST tier only in lru mode, so it
returns null here. -/
theorem c4_counterexample_rest_skipped_in_primary :
    getCacheRaw c4State false false "k" = none ∧ getCacheClaimC4 c4State "k" = some "1" :=
  ⟨rfl, rfl⟩

/-- Claim C4 (amended): with caching enabled getCache consults the Redis
tier when mode is Primary and the client is present; the HTTP/REST tier
only when mode is Fallback and it is configured, a Primary-mode Redis
miss falling through directly to the in-process LRU tier; it returns the
first truthy hit, which the caller deserializes, and null when every
tier misses. -/
theorem c4_amended_tier_order (st : CacheState) (key : String) :
    getCacheRaw st false false key = getCacheClaimC4Amended st key := by
  obtain ⟨en, rc, rf, mode, redis, rest, lru⟩ := st
  cases en <;> cases mode <;> cases rc <;> cases rf <;>
    simp [getCacheRaw, getCacheClaimC4Amended]

/-- Parameter mapping with two integer-like keys, for the claim C2
counterexample. -/
def c2IdxParams : List (String × JsonValue) := [("10", JsonValue.num 1), ("2", JsonValue.num 2)]

/-- Claim C2 counterexample: JavaScript property ordering serializes the
integer-like keys 2 and 10 in ascending numeric order no matter how the
reduce inserted them, so the generated key differs from the claimed
form, whose keys 10 and 2 would appear in lexicographic order. -/
theorem c2_counterexample_integer_like_keys :
    generateCacheKey "s" c2IdxParams ≠ cacheKeySortedLex "s" c2IdxParams := by
  decide

/-- Claim C2 (amended): two parameter mappings with the same key/value
pairs in different insertion order generate the same cache key, for all
mappings; and the claimed shape, audit, namespace and the JSON
serialization with keys sorted lexicographically, holds whenever no
parameter key is integer-like (integer-like keys are serialized first,
in ascending numeric order, by JavaScript property ordering). -/
theorem c2_amended_key_determinism_and_lex_form (ns : String)
    (p1 p2 : List (String × JsonValue))
    (hperm : p1.Perm p2) (hnd : (p1.map Prod.fst).Nodup) :
    generateCacheKey ns p1 = generateCacheKey ns p2 ∧
      ((∀ kv ∈ p1, isIndexKey kv.1 = false) →
        generateCacheKey ns p1 = cacheKeySortedLex ns p1) :=
  ⟨generateCacheKey_eq_of_perm ns hperm hnd, fun h => generateCacheKey_lexForm ns h⟩

/-- Two insertion orders of the same parameter mapping, for the claim C2
witness. -/
def c2ParamsBA : List (String × JsonValue) := [("b", JsonValue.num 1), ("a", JsonValue.str "x")]

/-- The other insertion order of the mapping in c2ParamsBA. -/
def c2ParamsAB : List (String × JsonValue) := [("a", JsonValue.str "x"), ("b", JsonValue.num 1)]

theorem c2_amended_witness :
    generateCacheKey "logs" c2ParamsBA = generateCacheKey "logs" c2ParamsAB ∧
      generateCacheKey "logs" c2ParamsBA = cacheKeySortedLex "logs" c2ParamsBA :=
  have h := c2_amended_key_determinism_and_lex_form "logs" c2ParamsBA c2ParamsAB
    (List.Perm.swap _ _ _) (by decide)
  ⟨h.1, h.2 (by decide)⟩

/-- Claim C5: every error a tier raises during isDuplicate is caught and
fails open, the call answering false with the state untouched; and
markAsProcessed swallows every error it meets, in particular the unique
constraint violated by a concurrent duplicate insert and a rejected
durable create, returning normally with the state untouched. -/
theorem c5_dedup_errors_swallowed (st : DedupState) (f1 f2 f3 g2 : Bool)
    (eid svc : String) :
    ((isDuplicate st f1 f2 f3 eid svc).2.1 = true →
        (isDuplicate st f1 f2 f3 eid svc).1 = false ∧
          (isDuplicate st f1 f2 f3 eid svc).2.2 = st) ∧
    (eid ≠ "" → hasEventId st.db eid = true →
        markAsProcessed st false g2 eid svc = (true, st)) ∧
    (eid ≠ "" → markAsProcessed st true g2 eid svc = (true, st)) := by
  refine ⟨?_, ?_, ?_⟩
  · intro h
    unfold isDuplicate at h ⊢
    split_ifs at h ⊢ <;> simp_all
  · intro hne hdup
    unfold markAsProcessed
    rw [if_neg hne, if_pos (Or.inr hdup)]
  · intro hne
    unfold markAsProcessed
    rw [if_neg hne, if_pos (Or.inl rfl)]

/-- Concrete dedup state holding one durable record, for the claim C5
witness; the fast-tier read is made to fail there. -/
def c5State : DedupState :=
  { redisConfigured := true, fast := [], db := [⟨"e", "s", 99⟩], now := 50 }

theorem c5_witness :
    ((isDuplicate c5State true false false "e" "s").1 = false ∧
      (isDuplicate c5State true false false "e" "s").2.2 = c5State) ∧
    markAsProcessed c5State false false "e" "s" = (true, c5State) :=
  ⟨(c5_dedup_errors_swallowed c5State true false false false "e" "s").1 rfl,
   (c5_dedup_errors_swallowed c5State true false false false "e" "s").2.1 (by decide) rfl⟩

/-- Claim C6: for a non-empty, not yet recorded eventId, markAsProcessed
succeeds, creating the durable DedupRecord with expiresAt seven days
after now and, when the fast tier is configured, a sentinel with the
seven-day (604800 second) expiry, and an immediate isDuplicate with no
tier errors answers true. -/
theorem c6_mark_then_duplicate (st : DedupState) (eid svc : String)
    (hne : eid ≠ "") (hfresh : hasEventId st.db eid = false) :
    (markAsProcessed st false false eid svc).1 = false ∧
    (⟨eid, svc, st.now + sevenDaysMs⟩ : DedupRecord) ∈ (markAsProcessed st false false eid svc).2.db ∧
    (st.redisConfigured = true →
      lookupFast (markAsProcessed st false false eid svc).2.fast (dedupKey eid)
        = some ("1", 604800)) ∧
    (isDuplicate (markAsProcessed st false false eid svc).2 false false false eid svc).1 = true := by
  unfold markAsProcessed
  rw [if_neg hne, if_neg (by simp [hfresh])]
  cases hrc : st.redisConfigured with
  | true =>
    refine ⟨by simp [hrc], by simp [hrc], fun _ => by simp [hrc, insertFast, lookupFast], ?_⟩
    unfold isDuplicate
    rw [if_neg hne]
    simp [hrc, insertFast, lookupFast]
  | false =>
    refine ⟨by simp [hrc], by simp [hrc], fun h => absurd h (by simp [hrc]), ?_⟩
    unfold isDuplicate
    rw [if_neg hne]
    simp [hrc, hasEventId]

/-- Empty dedup state with a configured fast tier, for the claim C6
witness with the example of the spec, evt-1 from finance. -/
def c6State : DedupState :=
  { redisConfigured := true, fast := [], db := [], now := 1000 }

theorem c6_witness :
    (markAsProcessed c6State false false "evt-1" "finance").1 = false ∧
    (⟨"evt-1", "finance", 1000 + sevenDaysMs⟩ : DedupRecord)
      ∈ (markAsProcessed c6State false false "evt-1" "finance").2.db ∧
    (c6State.redisConfigured = true →
      lookupFast (markAsProcessed c6State false false "evt-1" "finance").2.fast (dedupKey "evt-1")
        = some ("1", 604800)) ∧
    (isDuplicate (markAsProcessed c6State false false "evt-1" "finance").2
        false false false "evt-1" "finance").1 = true :=
  c6_mark_then_duplicate c6State "evt-1" "finance" (by decide) rfl

/-- Fallback-mode cache holding exactly the three keys of claim C7 in
its in-process tier. -/
def c7LruState : CacheState :=
  { enableCache := true, redisConnected := false, restConfigured := false,
    mode := CacheMode.lru, redis := [], rest := [],
    lru := [("audit:stats:a", "1"), ("audit:stats:b", "1"), ("audit:other:c", "1")] }

/-- Primary-mode cache holding exactly the three keys of claim C7 in the
Redis tier. -/
def c7RedisState : CacheState :=
  { enableCache := true, redisConnected := true, restConfigured := false,
    mode := CacheMode.redis,
    redis := [("audit:stats:a", "1"), ("audit:stats:b", "1"), ("audit:other:c", "1")],
    rest := [], lru := [] }

/-- Claim C7 counterexample: in Fallback (lru) operation on exactly the
three claimed keys, matching is substring containment of the literal
pattern text, star included, so audit:stats:a and audit:stats:b do not
match: nothing is deleted and the count is 0, not the claimed 2. -/
theorem c7_counterexample_fallback_star_pattern :
    (invalidatePattern c7LruState "audit:stats:*" false).1 = 0 ∧
    (invalidatePattern c7LruState "audit:stats:*" false).2.lru = c7LruState.lru :=
  ⟨rfl, rfl⟩

/-- Claim C7 (amended): in Primary (redis) mode the pattern is evaluated
as a backend glob, so on the three claimed keys invalidatePattern
removes exactly audit:stats:a and audit:stats:b, leaves audit:other:c,
and returns 2; in Fallback/in-process operation matching is substring
containment of the literal pattern text, so the star-bearing pattern
matches no key and the call returns 0 deleting nothing. -/
theorem c7_amended_invalidate_pattern :
    (invalidatePattern c7RedisState "audit:stats:*" false).1 = 2 ∧
    (invalidatePattern c7RedisState "audit:stats:*" false).2.redis = [("audit:other:c", "1")] ∧
    invalidatePattern c7LruState "audit:stats:*" false = (0, c7LruState) :=
  ⟨rfl, rfl, rfl⟩

/-- Claim C8: cleanupExpired with a healthy durable tier deletes exactly
the records whose expiresAt is strictly before now: a record survives
the sweep exactly when it was present and unexpired, and the returned
count plus the number of survivors accounts for every original record. -/
theorem c8_cleanup_expired_exact (st : DedupState) (r : DedupRecord) :
    (r ∈ (cleanupExpired st false).2.db ↔ r ∈ st.db ∧ st.now ≤ r.expiresAt) ∧
    (cleanupExpired st false).1 + (cleanupExpired st false).2.db.length = st.db.length := by
  unfold cleanupExpired
  simp only [Bool.false_eq_true, if_false]
  constructor
  · simp [List.mem_filter, not_lt]
  · have h := (List.filter_append_perm (fun r => decide (r.expiresAt < st.now)) st.db).length_eq
    rw [List.length_append] at h
    exact h

/-- Claim C9: an empty eventId short-circuits both dedup operations: for
every state and every failure oracle, isDuplicate answers false without
an error and without consulting any tier, and markAsProcessed returns
normally having created no record and no sentinel, both leaving the
state untouched. -/
theorem c9_empty_event_id_noop (st : DedupState) (f1 f2 f3 g1 g2 : Bool) (svc : String) :
    isDuplicate st f1 f2 f3 "" svc = (false, false, st) ∧
    markAsProcessed st g1 g2 "" svc = (false, st) :=
  ⟨rfl, rfl⟩

/-- Claim C10: when the payload cached under a key is the JSON null
literal, the parsed getCache result is null, indistinguishable from a
miss, so withCache runs its compute function again and re-stores the
computed result through setCache; and re-storing a computed null puts
the null literal back, so the following read still yields the null
payload and the next withCache call recomputes as well, until a
non-null value is stored. -/
theorem c10_null_payload_recomputed (st : CacheState) (k : String) (c : JsonValue)
    (ttl : Option Nat) (hnull : getCacheRaw st false false k = some "null") :
    withCache st k c ttl = (jsonStringify c, true, setCache st k c ttl false false) ∧
    getCacheRaw (setCache st k JsonValue.null ttl false false) false false k = some "null" := by
  have hE : st.enableCache = true := by
    cases h : st.enableCache
    · rw [getCacheRaw, if_pos h] at hnull
      exact absurd hnull (by simp)
    · rfl
  constructor
  · unfold withCache
    rw [hnull]
    simp
  · exact setCache_roundTrip st k JsonValue.null ttl hE

/-- Fallback-mode cache whose in-process tier holds the JSON null
literal under the key k, for the claim C10 witness. -/
def c10State : CacheState :=
  { enableCache := true, redisConnected := false, restConfigured := false,
    mode := CacheMode.lru, redis := [], rest := [], lru := [("k", "null")] }

theorem c10_witness :
    withCache c10State "k" (JsonValue.num 3) none
      = (jsonStringify (JsonValue.num 3), true, setCache c10State "k" (JsonValue.num 3) none false false) ∧
    getCacheRaw (setCache c10State "k" JsonValue.null none false false) false false "k"
      = some "null" :=
  c10_null_payload_recomputed c10State "k" (JsonValue.num 3) none rfl
